import Mathlib

/-!
Verification of the Icebreaker core (permission engine and connection
lifecycle manager) against its natural-language specification.

The definitions below are a shallow embedding of the Python sources
`src/icebreaker/core/permissions.py`, `src/icebreaker/core/config.py` and
`src/icebreaker/core/connection.py`.  Python dictionaries are embedded as
association lists (configuration tables) or as functions to `Option`
(the mutable permission cache); mutable object state is passed
explicitly; raised exceptions become `Except` results.  Human-readable
reason strings produced with f-string interpolation are embedded as an
inductive `Reason` type whose constructors carry exactly the data that
is interpolated into the corresponding message.
-/

namespace Icebreaker

/-- ASCII uppercasing of one character, modelling the Python method
`str.upper` on the ASCII statements and patterns this code handles. -/
def charUpper (c : Char) : Char :=
  if 'a' ≤ c && c ≤ 'z' then Char.ofNat (c.toNat - 32) else c

/-- Drop leading whitespace characters from a character list. -/
def dropWhitespaceLeft : List Char → List Char
  | [] => []
  | c :: cs => if c.isWhitespace then dropWhitespaceLeft cs else c :: cs

/-- Model of the Python method `str.strip()`: remove whitespace from both ends. -/
def strTrim (s : String) : String :=
  ⟨(dropWhitespaceLeft ((dropWhitespaceLeft s.data).reverse)).reverse⟩

/-- Model of the Python method `str.upper()` (ASCII range). -/
def strUpper (s : String) : String :=
  ⟨s.data.map charUpper⟩

/-- Model of the Python method `str.startswith`. -/
def strStartsWith (s pre : String) : Bool :=
  pre.data.isPrefixOf s.data

/-- Safety check levels (`SafetyLevel` in permissions.py). -/
inductive SafetyLevel
  | permissive
  | normal
  | strict
deriving DecidableEq

/-- Operation types (`OperationType` in permissions.py), a string-valued
enum in the source. -/
inductive OperationType
  | READ
  | WRITE
  | DELETE
  | ADMIN
  | WAREHOUSE_MANAGE
  | USER_MANAGE_BASIC
  | USER_MANAGE_ADMIN
  | SCHEMA_MANAGE
  | ALL
deriving DecidableEq

/-- The string value of each `OperationType` member (the enum is a
`str` enum in the source, so membership tests compare these values). -/
def OperationType.toStr : OperationType → String
  | .READ => "READ"
  | .WRITE => "WRITE"
  | .DELETE => "DELETE"
  | .ADMIN => "ADMIN"
  | .WAREHOUSE_MANAGE => "WAREHOUSE_MANAGE"
  | .USER_MANAGE_BASIC => "USER_MANAGE_BASIC"
  | .USER_MANAGE_ADMIN => "USER_MANAGE_ADMIN"
  | .SCHEMA_MANAGE => "SCHEMA_MANAGE"
  | .ALL => "*"

/-- Reasons carried by permission results.  Each constructor embeds one
f-string message of the source together with the values interpolated
into it. -/
inductive Reason
  | cachedPermission (role tool : String)
  | toolNotEnabled (tool : String)
  | roleLacksPermission (role tool : String)
  | blockedInSafeMode (tool : String)
  | requiresUserConfirmation (tool : String)
  | requiresApprovalWorkflow (tool : String)
  | safeModeDisabled
  | operationIsAllowed
  | rolePermission (role tool : String)
  | sqlDisallowed (stmt : String)
  | adminAllowed (role : String)
  | adminLacking (role stmt : String)
  | sqlAllowed (stmt : String)
  | broadPermissions (role : String)
  | sqlNotRecognized
deriving DecidableEq

/-- Result of a permission check (`PermissionResult` in permissions.py). -/
structure PermissionResult where
  allowed : Bool
  reason : Reason
  requires_confirmation : Bool := false
  requires_approval : Bool := false
  safety_level : SafetyLevel := .normal
deriving DecidableEq

/-- Service configuration (`ServiceConfig` in config.py). -/
structure ServiceConfig where
  enabled : Bool := true
  tools : List String := []
  safety_checks : String := "normal"
deriving DecidableEq

/-- SQL statement permission lists (`SQLPermissions` in config.py). -/
structure SQLPermissions where
  allowed : List String := ["SELECT", "SHOW", "DESCRIBE", "GET_DDL", "USE", "WITH"]
  administrative_allowed : List String :=
    ["ALTER WAREHOUSE", "CREATE USER", "ALTER USER", "GRANT ROLE", "SYSTEM$ABORT_QUERY"]
  disallowed : List String :=
    ["DROP DATABASE", "DROP SCHEMA", "DROP WAREHOUSE", "UNSUPPORTED"]
deriving DecidableEq

/-- Individual tool permission configuration (`ToolPermission` in config.py). -/
structure ToolPermission where
  required_roles : List String := []
  safety_checks : Bool := true
  requires_confirmation : Bool := false
  requires_approval : Bool := false
  blocked_in_safe_mode : Bool := false
deriving DecidableEq

/-- Role-based access control configuration (`RoleConfig` in config.py). -/
structure RoleConfig where
  allowed_tools : List String := ["*"]
  allowed_operations : List String := ["*"]
deriving DecidableEq

/-- The slice of `IcebreakerConfig` (config.py) consulted by the
permission engine: safe-mode flag, the four service tiers, the SQL
permission lists, the role table and the per-tool permission table.
Dictionaries are embedded as association lists. -/
structure IcebreakerConfig where
  safe_mode : Bool := true
  discovery : ServiceConfig := {}
  operational : ServiceConfig := {}
  engineering : ServiceConfig := {}
  intelligence : ServiceConfig := {}
  sql_permissions : SQLPermissions := {}
  roles : List (String × RoleConfig) :=
    [("analyst",
      { allowed_tools := ["list_databases", "list_schemas", "list_tables",
                          "describe_table", "get_object_ddl", "search_objects"],
        allowed_operations := ["READ"] }),
     ("dataops",
      { allowed_tools := ["*"],
        allowed_operations := ["READ", "WAREHOUSE_MANAGE", "USER_MANAGE_BASIC"] }),
     ("admin",
      { allowed_tools := ["*"], allowed_operations := ["*"] })]
  tool_permissions : List (String × ToolPermission) := []

/-- Model of `IcebreakerConfig.get_enabled_services`: the four service tiers in
their fixed iteration order. -/
def IcebreakerConfig.get_enabled_services (c : IcebreakerConfig) : List ServiceConfig :=
  [c.discovery, c.operational, c.engineering, c.intelligence]

/-- Model of `IcebreakerConfig.is_tool_enabled`: a tool is enabled if some enabled
service either lists exactly `["*"]` or contains the tool. -/
def IcebreakerConfig.is_tool_enabled (c : IcebreakerConfig) (tool_name : String) : Bool :=
  c.get_enabled_services.any fun s =>
    s.enabled && (s.tools == ["*"] || s.tools.contains tool_name)

/-- Model of `IcebreakerConfig.check_permission`: role-table check (wildcard or
explicit tool) with a fallback on the tool-permission table (an entry
with empty `required_roles` means no role restriction; otherwise the
role must be listed). -/
def IcebreakerConfig.check_permission (c : IcebreakerConfig) (tool_name user_role : String) : Bool :=
  (match c.roles.lookup user_role with
   | some role_config =>
       role_config.allowed_tools.contains "*" || role_config.allowed_tools.contains tool_name
   | none => false)
  ||
  (match c.tool_permissions.lookup tool_name with
   | some tool_permission =>
       tool_permission.required_roles.isEmpty || tool_permission.required_roles.contains user_role
   | none => false)

/-- The dictionary returned by `is_safe_for_operation` in config.py
(`allowed`, `reason`, and the optional confirmation/approval flags read
back with `.get(..., False)`). -/
structure SafetyResult where
  allowed : Bool
  reason : Reason
  requires_confirmation : Bool := false
  requires_approval : Bool := false
deriving DecidableEq

/-- Model of `IcebreakerConfig.is_safe_for_operation`: immediately allows when
safe mode is disabled; otherwise looks up the tool policy (default if
absent) and checks blocked-in-safe-mode, then confirmation, then
approval, in that order. -/
def IcebreakerConfig.is_safe_for_operation (c : IcebreakerConfig) (tool_name : String) : SafetyResult :=
  if !c.safe_mode then
    { allowed := true, reason := .safeModeDisabled }
  else
    let tool_permission := (c.tool_permissions.lookup tool_name).getD {}
    if tool_permission.blocked_in_safe_mode then
      { allowed := false, reason := .blockedInSafeMode tool_name }
    else if tool_permission.requires_confirmation then
      { allowed := false, reason := .requiresUserConfirmation tool_name,
        requires_confirmation := true }
    else if tool_permission.requires_approval then
      { allowed := false, reason := .requiresApprovalWorkflow tool_name,
        requires_approval := true }
    else
      { allowed := true, reason := .operationIsAllowed }

/-- Model of `PermissionManager` state: the configuration and the mutable
permission cache `_permission_cache`, embedded as a function from cache
keys to optional stored booleans. -/
structure PermissionManager where
  config : IcebreakerConfig
  permission_cache : String → Option Bool

/-- A freshly constructed `PermissionManager` (empty cache). -/
def PermissionManager.init (c : IcebreakerConfig) : PermissionManager :=
  { config := c, permission_cache := fun _ => none }

/-- The uncached path of `check_tool_permission`: enabled-tool check,
role check, safety check, and on full success the positive cache write
under `key`. -/
def PermissionManager.checkToolUncached (m : PermissionManager)
    (tool_name user_role key : String) : PermissionResult × PermissionManager :=
  if !(m.config.is_tool_enabled tool_name) then
    ({ allowed := false, reason := .toolNotEnabled tool_name }, m)
  else if !(m.config.check_permission tool_name user_role) then
    ({ allowed := false, reason := .roleLacksPermission user_role tool_name }, m)
  else
    let safety_result := m.config.is_safe_for_operation tool_name
    if !safety_result.allowed then
      ({ allowed := false, reason := safety_result.reason,
         requires_confirmation := safety_result.requires_confirmation,
         requires_approval := safety_result.requires_approval }, m)
    else
      ({ allowed := true, reason := .rolePermission user_role tool_name },
       { m with permission_cache :=
           fun k => if k = key then some true else m.permission_cache k })

/-- Model of `PermissionManager.check_tool_permission`: cache lookup on the key
`tool_name ++ ":" ++ user_role`; a stored `true` short-circuits to an
allow, anything else falls through to the uncached path. -/
def PermissionManager.check_tool_permission (m : PermissionManager)
    (tool_name user_role : String) : PermissionResult × PermissionManager :=
  let cache_key := tool_name ++ ":" ++ user_role
  match m.permission_cache cache_key with
  | some true =>
      ({ allowed := true, reason := .cachedPermission user_role tool_name }, m)
  | some false => m.checkToolUncached tool_name user_role cache_key
  | none => m.checkToolUncached tool_name user_role cache_key

/-- Model of `PermissionManager._has_operation_permission`: wildcard, then the
specific operation value, then the admin umbrella for the four
admin-like operation kinds. -/
def PermissionManager.has_operation_permission (c : IcebreakerConfig)
    (user_role : String) (operation : OperationType) : Bool :=
  match c.roles.lookup user_role with
  | none => false
  | some role_config =>
      if role_config.allowed_operations.contains "*" then true
      else if role_config.allowed_operations.contains operation.toStr then true
      else if (operation = .ADMIN || operation = .WAREHOUSE_MANAGE ||
               operation = .USER_MANAGE_ADMIN || operation = .SCHEMA_MANAGE) &&
              role_config.allowed_operations.contains OperationType.ADMIN.toStr then true
      else false

/-- The normalization applied to SQL statements by
`check_sql_permission`: `sql_statement.strip().upper()`. -/
def normalizeSQL (sql_statement : String) : String :=
  strUpper (strTrim sql_statement)

/-- Model of `PermissionManager.check_sql_permission`: first matching prefix in
the disallowed list wins, then the administrative list (gated on ADMIN
permission), then the allowed list, then the broad-permission fallback. -/
def PermissionManager.check_sql_permission (c : IcebreakerConfig)
    (sql_statement user_role : String) : PermissionResult :=
  let sql_upper := normalizeSQL sql_statement
  match c.sql_permissions.disallowed.find? (fun d => strStartsWith sql_upper (strUpper d)) with
  | some disallowed =>
      { allowed := false, reason := .sqlDisallowed disallowed }
  | none =>
  match c.sql_permissions.administrative_allowed.find?
      (fun a => strStartsWith sql_upper (strUpper a)) with
  | some admin_stmt =>
      if PermissionManager.has_operation_permission c user_role .ADMIN then
        { allowed := true, reason := .adminAllowed user_role }
      else
        { allowed := false, reason := .adminLacking user_role admin_stmt }
  | none =>
  match c.sql_permissions.allowed.find? (fun a => strStartsWith sql_upper (strUpper a)) with
  | some allowed_stmt =>
      { allowed := true, reason := .sqlAllowed allowed_stmt }
  | none =>
      if PermissionManager.has_operation_permission c user_role .ALL then
        { allowed := true, reason := .broadPermissions user_role }
      else
        { allowed := false, reason := .sqlNotRecognized }

/-- Model of `PermissionManager.clear_permission_cache`: drops every cache entry. -/
def PermissionManager.clear_permission_cache (m : PermissionManager) : PermissionManager :=
  { m with permission_cache := fun _ => none }

/-- Operations of the permission manager that can run against its
state.  `check_sql_permission`, `_has_operation_permission`,
`get_effective_permissions` and `validate_operation_context` never read
or write `_permission_cache` in the source, so only `checkTool` and
`clearCache` appear with state effects; `checkSQL` is kept to record
that it leaves the state untouched. -/
inductive PMOp
  | checkTool (tool_name user_role : String)
  | checkSQL (sql_statement user_role : String)
  | clearCache

/-- State effect of one permission-manager operation. -/
def PermissionManager.runOp (m : PermissionManager) : PMOp → PermissionManager
  | .checkTool t r => (m.check_tool_permission t r).2
  | .checkSQL _ _ => m
  | .clearCache => m.clear_permission_cache

/-- State after a sequence of permission-manager operations. -/
def PermissionManager.runOps (m : PermissionManager) : List PMOp → PermissionManager
  | [] => m
  | op :: ops => (m.runOp op).runOps ops

/-! ## Connection lifecycle manager (connection.py) -/

/-- Snowflake authentication types (`AuthType` in config.py). -/
inductive AuthType
  | private_key
  | password
  | externalbrowser
  | oauth
deriving DecidableEq

/-- Snowflake connection configuration (`SnowflakeConfig` in config.py). -/
structure SnowflakeConfig where
  account : String
  user : String
  role : Option String := none
  warehouse : Option String := none
  database : Option String := none
  schema_name : Option String := none
  auth_type : AuthType := .private_key
  private_key_path : Option String := none
  private_key : Option String := none
  password : Option String := none
  authenticator : Option String := none
  token : Option String := none
deriving DecidableEq

/-- The exceptions that flow through the connection manager:
`ConfigurationError` and `ConnectionError` from errors.py, plus
`externalError` for exceptions raised by the external Snowflake
connector or the validation probe. -/
inductive PyError
  | configurationError (msg : String)
  | connectionError (msg : String)
  | externalError (msg : String)
deriving DecidableEq

/-- The message of an exception (Python `str(e)`). -/
def PyError.msg : PyError → String
  | .configurationError m => m
  | .connectionError m => m
  | .externalError m => m

/-- Python truthiness of an optional string field (`if config.field:`):
`None` and the empty string are falsy. -/
def optTruthy : Option String → Bool
  | none => false
  | some s => !s.data.isEmpty

/-- A connection-parameter value (string fields or the integer timeout). -/
inductive ParamValue
  | str (s : String)
  | int (n : Int)
deriving DecidableEq

/-- One optional connection parameter: present only when the
configuration field is truthy. -/
def optParamStr (key : String) (v : Option String) : List (String × ParamValue) :=
  if optTruthy v then [(key, .str (v.getD ""))] else []

/-- Model of `SnowflakeConnectionManager._build_connection_params`: base
parameters, optional session parameters, then the variant-specific
authentication parameters; a missing required credential raises
`ConfigurationError`. -/
def build_connection_params (sc : SnowflakeConfig) (connection_timeout : Int) :
    Except PyError (List (String × ParamValue)) :=
  let params : List (String × ParamValue) :=
    [("account", .str sc.account), ("user", .str sc.user), ("timeout", .int connection_timeout)]
    ++ optParamStr "role" sc.role
    ++ optParamStr "warehouse" sc.warehouse
    ++ optParamStr "database" sc.database
    ++ optParamStr "schema" sc.schema_name
  match sc.auth_type with
  | .private_key =>
      if optTruthy sc.private_key then
        .ok (params ++ [("private_key", .str (sc.private_key.getD ""))])
      else if optTruthy sc.private_key_path then
        .ok (params ++ [("private_key_file", .str (sc.private_key_path.getD ""))])
      else
        .error (.configurationError
          "Private key authentication requires private_key or private_key_path")
  | .password =>
      if !optTruthy sc.password then
        .error (.configurationError "Password authentication requires password parameter")
      else
        .ok (params ++ [("password", .str (sc.password.getD ""))])
  | .externalbrowser =>
      .ok (params ++ [("authenticator", .str "externalbrowser")])
  | .oauth =>
      if !optTruthy sc.token then
        .error (.configurationError "OAuth authentication requires token parameter")
      else
        .ok (params ++ [("token", .str (sc.token.getD "")), ("authenticator", .str "oauth")])

/-- Behaviour of the external `snowflake.connector.connect` call and
the `SELECT CURRENT_VERSION()` validation probe, supplied as an oracle:
either both succeed or some exception with a message is raised. -/
inductive ConnectOutcome
  | ok
  | fail (msg : String)
deriving DecidableEq

/-- Model of `SnowflakeConnectionManager` state: the configuration slice it
reads plus the mutable fields `_connection`, `_last_refresh`,
`_last_error`, `_connection_healthy`.  Timestamps are naturals;
`refresh_interval` is the staleness window in the same unit. -/
structure SnowflakeConnectionManager where
  snowflake : SnowflakeConfig
  refresh_interval : Nat := 8
  connection_timeout : Int := 60
  connection : Option Unit := none
  last_refresh : Option Nat := none
  last_error : Option PyError := none
  connection_healthy : Bool := false
deriving DecidableEq

/-- Model of `SnowflakeConnectionManager._create_connection`: builds parameters,
connects and probes; on success records the refresh time, clears the
error and marks healthy; on any exception (including the
`ConfigurationError` from parameter building, caught by the blanket
`except Exception`) records that original exception, marks unhealthy
and raises `ConnectionError` wrapping its message. -/
def create_connection (m : SnowflakeConnectionManager) (now : Nat)
    (oracle : ConnectOutcome) : Except PyError Unit × SnowflakeConnectionManager :=
  match build_connection_params m.snowflake m.connection_timeout with
  | .error e =>
      (.error (.connectionError ("Failed to connect to Snowflake: " ++ e.msg)),
       { m with last_error := some e, connection_healthy := false })
  | .ok _ =>
      match oracle with
      | .ok =>
          (.ok (),
           { m with last_refresh := some now, last_error := none, connection_healthy := true })
      | .fail s =>
          (.error (.connectionError ("Failed to connect to Snowflake: " ++ s)),
           { m with last_error := some (.externalError s), connection_healthy := false })

/-- Model of `SnowflakeConnectionManager._is_connection_stale`: stale when never
refreshed or when `now - lastRefresh` exceeds the refresh interval. -/
def is_connection_stale (m : SnowflakeConnectionManager) (now : Nat) : Bool :=
  match m.last_refresh with
  | none => true
  | some t => decide (m.refresh_interval < now - t)

/-- Model of `SnowflakeConnectionManager.get_connection` (the acquisition up to
and including the yield): under the connection lock, recreate the
connection when absent, unhealthy or stale (best-effort closing the old
one), otherwise reuse it; an exception escaping the body records the
raised error and marks the state unhealthy before propagating. -/
def get_connection (m : SnowflakeConnectionManager) (now : Nat)
    (oracle : ConnectOutcome) : Except PyError Unit × SnowflakeConnectionManager :=
  if m.connection.isNone || !m.connection_healthy || is_connection_stale m now then
    match create_connection m now oracle with
    | (.ok _, m1) => (.ok (), { m1 with connection := some () })
    | (.error e, m1) => (.error e, { m1 with last_error := some e, connection_healthy := false })
  else
    (.ok (), m)

/-- Reasons reported by `is_connection_healthy`: the recorded error
message (`f"{type}: {str}"`), `"No connection established"`, or
`"Connection is stale"`. -/
inductive HealthReason
  | errorMsg (e : PyError)
  | noConnection
  | stale
deriving DecidableEq

/-- Model of `SnowflakeConnectionManager.is_connection_healthy`: the recorded
error, if any, is reported first (with the stored healthy flag); then
the no-connection check, then staleness, then the stored healthy flag. -/
def is_connection_healthy (m : SnowflakeConnectionManager) (now : Nat) :
    Bool × Option HealthReason :=
  match m.last_error with
  | some e => (m.connection_healthy, some (.errorMsg e))
  | none =>
      if m.connection.isNone then
        (false, some .noConnection)
      else if is_connection_stale m now then
        (false, some .stale)
      else
        (m.connection_healthy, none)

/-- Model of `SnowflakeConnectionManager.close_connection`: closes and clears
the handle, marking the state unhealthy; a no-op without a connection. -/
def close_connection (m : SnowflakeConnectionManager) : SnowflakeConnectionManager :=
  match m.connection with
  | some _ => { m with connection := none, connection_healthy := false }
  | none => m

/-- Events of one execution of the `get_connection` context manager,
in program order.  Translated from the lexical structure of the source:
the `with self._connection_lock:` block encloses the connect-or-reuse
decision, the cursor creation AND the `yield self._connection, cursor`
statement, so the caller-supplied body at the yield point runs before
the `with` block exits and releases the lock. -/
inductive AcquireEvent
  | lockAcquire
  | connectOrReuse
  | cursorCreate
  | callerBody
  | lockRelease
deriving DecidableEq

/-- The program-order event trace of a successful `get_connection`
execution, read off the block structure of the source. -/
def acquireEventTrace : List AcquireEvent :=
  [.lockAcquire, .connectOrReuse, .cursorCreate, .callerBody, .lockRelease]

/-! ## Spec-side characterizations and concrete examples -/

/-- The spec condition "the allowedOperations of the role is All": the
role is in the table and its operation list contains the wildcard. -/
def roleHasWildcard (c : IcebreakerConfig) (user_role : String) : Bool :=
  match c.roles.lookup user_role with
  | some role_config => role_config.allowed_operations.contains "*"
  | none => false

/-- The spec condition "the role has ADMIN in allowedOperations,
directly or via the All wildcard". -/
def roleHasAdmin (c : IcebreakerConfig) (user_role : String) : Bool :=
  match c.roles.lookup user_role with
  | some role_config =>
      role_config.allowed_operations.contains "*" ||
      role_config.allowed_operations.contains "ADMIN"
  | none => false

/-- The cache never stores a negative outcome. -/
def cacheOnlyPositive (m : PermissionManager) : Prop :=
  ∀ k, m.permission_cache k = none ∨ m.permission_cache k = some true

/-- A configuration with safe mode disabled whose tool `"t"` is
enabled, permitted to role `"r"`, and flagged `requires_confirmation`. -/
def cfgSafeModeOff : IcebreakerConfig :=
  { safe_mode := false,
    discovery := { enabled := true, tools := ["t"] },
    roles := [("r", { allowed_tools := ["*"], allowed_operations := ["*"] })],
    tool_permissions := [("t", { requires_confirmation := true })] }

/-- Safe mode enabled (the default), tool `"t"` enabled and permitted,
with `requires_confirmation` set. -/
def cfgConfirmTool : IcebreakerConfig :=
  { discovery := { enabled := true, tools := ["t"] },
    roles := [("r", { allowed_tools := ["*"], allowed_operations := ["*"] })],
    tool_permissions := [("t", { requires_confirmation := true })] }

/-- Safe mode enabled, tool `"t"` enabled and permitted, with
`requires_approval` set (and confirmation not required). -/
def cfgApproveTool : IcebreakerConfig :=
  { discovery := { enabled := true, tools := ["t"] },
    roles := [("r", { allowed_tools := ["*"], allowed_operations := ["*"] })],
    tool_permissions := [("t", { requires_approval := true })] }

/-- An empty role table together with a tool-permission entry for the
enabled tool `"t"` whose `required_roles` list is empty. -/
def cfgUnknownRoleFallback : IcebreakerConfig :=
  { safe_mode := false,
    discovery := { enabled := true, tools := ["t"] },
    roles := [],
    tool_permissions := [("t", {})] }

/-- A configuration on which the colliding cache keys of tools
`"a:b"`/`"a"` and roles `"c"`/`"b:c"` are observable: only tool
`"a:b"` is enabled, only role `"c"` exists. -/
def cfgColliding : IcebreakerConfig :=
  { safe_mode := false,
    discovery := { enabled := true, tools := ["a:b"] },
    roles := [("c", {})],
    tool_permissions := [] }

/-- A manager configured for password authentication with no password. -/
def mgrMissingPassword : SnowflakeConnectionManager :=
  { snowflake := { account := "acct", user := "u", auth_type := .password } }

/-- A manager configured for private-key authentication with neither an
embedded key nor a key path. -/
def mgrMissingPrivateKey : SnowflakeConnectionManager :=
  { snowflake := { account := "acct", user := "u", auth_type := .private_key } }

/-- A manager configured for OAuth authentication with no token. -/
def mgrMissingToken : SnowflakeConnectionManager :=
  { snowflake := { account := "acct", user := "u", auth_type := .oauth } }

/-- The manager state reached from `mgrMissingPassword` after one
failed acquisition attempt: the connect raised, the wrapped error was
recorded, and no connection handle exists. -/
def mgrAfterFailedAcquire : SnowflakeConnectionManager :=
  (get_connection mgrMissingPassword 0 ConnectOutcome.ok).2

end Icebreaker

namespace Icebreaker

/-- Model of `_has_operation_permission` queried at the wildcard operation is
exactly the role-has-wildcard test. -/
theorem has_operation_permission_ALL (c : IcebreakerConfig) (user_role : String) :
    PermissionManager.has_operation_permission c user_role .ALL = roleHasWildcard c user_role := by
  unfold PermissionManager.has_operation_permission roleHasWildcard
  cases c.roles.lookup user_role with
  | none => rfl
  | some rc =>
      cases h : rc.allowed_operations.contains "*" <;>
        simp [OperationType.toStr, h]

/-- Model of `_has_operation_permission` queried at ADMIN is exactly "ADMIN
directly or via the wildcard". -/
theorem has_operation_permission_ADMIN (c : IcebreakerConfig) (user_role : String) :
    PermissionManager.has_operation_permission c user_role .ADMIN = roleHasAdmin c user_role := by
  unfold PermissionManager.has_operation_permission roleHasAdmin
  cases c.roles.lookup user_role with
  | none => rfl
  | some rc =>
      cases h : rc.allowed_operations.contains "*" <;>
        cases h2 : rc.allowed_operations.contains "ADMIN" <;>
          simp [OperationType.toStr, h, h2]

/-- C1: a statement whose normalized text starts with a disallowed
prefix is denied for every role and configuration. -/
theorem C1_disallowed_prefix_denies (c : IcebreakerConfig)
    (sql_statement user_role d : String)
    (hd : d ∈ c.sql_permissions.disallowed)
    (hpre : strStartsWith (normalizeSQL sql_statement) (strUpper d) = true) :
    (PermissionManager.check_sql_permission c sql_statement user_role).allowed = false := by
  have hf : (c.sql_permissions.disallowed.find?
      (fun p => strStartsWith (normalizeSQL sql_statement) (strUpper p))).isSome :=
    List.find?_isSome.mpr ⟨d, hd, hpre⟩
  obtain ⟨a, ha⟩ := Option.isSome_iff_exists.mp hf
  unfold PermissionManager.check_sql_permission
  simp [ha]

theorem C1_witness :
    "DROP DATABASE" ∈ ({} : IcebreakerConfig).sql_permissions.disallowed
    ∧ strStartsWith (normalizeSQL "DROP DATABASE foo") (strUpper "DROP DATABASE") = true
    ∧ (PermissionManager.check_sql_permission {} "DROP DATABASE foo" "admin").allowed = false :=
  ⟨by decide, by decide,
   C1_disallowed_prefix_denies {} "DROP DATABASE foo" "admin" "DROP DATABASE"
     (by decide) (by decide)⟩

end Icebreaker

namespace Icebreaker

/-- C6: with no prefix matched in any list, allow exactly on the
wildcard; otherwise the not-recognized denial. -/
theorem C6_no_match_requires_wildcard (c : IcebreakerConfig)
    (sql_statement user_role : String)
    (hd : ∀ p ∈ c.sql_permissions.disallowed,
      strStartsWith (normalizeSQL sql_statement) (strUpper p) = false)
    (hadm : ∀ p ∈ c.sql_permissions.administrative_allowed,
      strStartsWith (normalizeSQL sql_statement) (strUpper p) = false)
    (hal : ∀ p ∈ c.sql_permissions.allowed,
      strStartsWith (normalizeSQL sql_statement) (strUpper p) = false) :
    (PermissionManager.check_sql_permission c sql_statement user_role).allowed
      = roleHasWildcard c user_role
    ∧ (roleHasWildcard c user_role = false →
        PermissionManager.check_sql_permission c sql_statement user_role
          = { allowed := false, reason := .sqlNotRecognized }) := by
  have f1 : c.sql_permissions.disallowed.find?
      (fun p => strStartsWith (normalizeSQL sql_statement) (strUpper p)) = none :=
    List.find?_eq_none.mpr (fun x hx => by simp [hd x hx])
  have f2 : c.sql_permissions.administrative_allowed.find?
      (fun p => strStartsWith (normalizeSQL sql_statement) (strUpper p)) = none :=
    List.find?_eq_none.mpr (fun x hx => by simp [hadm x hx])
  have f3 : c.sql_permissions.allowed.find?
      (fun p => strStartsWith (normalizeSQL sql_statement) (strUpper p)) = none :=
    List.find?_eq_none.mpr (fun x hx => by simp [hal x hx])
  unfold PermissionManager.check_sql_permission
  simp only [f1, f2, f3, has_operation_permission_ALL]
  cases h : roleHasWildcard c user_role <;> simp [h]

theorem C6_witness :
    (PermissionManager.check_sql_permission {} "MERGE INTO t" "admin").allowed
      = roleHasWildcard {} "admin"
    ∧ PermissionManager.check_sql_permission {} "MERGE INTO t" "analyst"
      = { allowed := false, reason := .sqlNotRecognized } :=
  ⟨(C6_no_match_requires_wildcard {} "MERGE INTO t" "admin"
      (by decide) (by decide) (by decide)).1,
   (C6_no_match_requires_wildcard {} "MERGE INTO t" "analyst"
      (by decide) (by decide) (by decide)).2 (by decide)⟩

/-- C7: with no disallowed prefix matched and an administrative prefix
matched, allow exactly on ADMIN (directly or via the wildcard), else
deny naming the matched administrative prefix. -/
theorem C7_admin_prefix_requires_admin (c : IcebreakerConfig)
    (sql_statement user_role a : String)
    (hd : ∀ p ∈ c.sql_permissions.disallowed,
      strStartsWith (normalizeSQL sql_statement) (strUpper p) = false)
    (ha : c.sql_permissions.administrative_allowed.find?
      (fun p => strStartsWith (normalizeSQL sql_statement) (strUpper p)) = some a) :
    (PermissionManager.check_sql_permission c sql_statement user_role).allowed
      = roleHasAdmin c user_role
    ∧ (roleHasAdmin c user_role = false →
        PermissionManager.check_sql_permission c sql_statement user_role
          = { allowed := false, reason := .adminLacking user_role a }) := by
  have f1 : c.sql_permissions.disallowed.find?
      (fun p => strStartsWith (normalizeSQL sql_statement) (strUpper p)) = none :=
    List.find?_eq_none.mpr (fun x hx => by simp [hd x hx])
  unfold PermissionManager.check_sql_permission
  simp only [f1, ha, has_operation_permission_ADMIN]
  cases h : roleHasAdmin c user_role <;> simp [h]

theorem C7_witness :
    (PermissionManager.check_sql_permission {} "ALTER WAREHOUSE x SET s" "admin").allowed
      = roleHasAdmin {} "admin"
    ∧ roleHasAdmin {} "admin" = true
    ∧ PermissionManager.check_sql_permission {} "ALTER WAREHOUSE x SET s" "analyst"
      = { allowed := false, reason := .adminLacking "analyst" "ALTER WAREHOUSE" } :=
  ⟨(C7_admin_prefix_requires_admin {} "ALTER WAREHOUSE x SET s" "admin" "ALTER WAREHOUSE"
      (by decide) (by decide)).1,
   by decide,
   (C7_admin_prefix_requires_admin {} "ALTER WAREHOUSE x SET s" "analyst" "ALTER WAREHOUSE"
      (by decide) (by decide)).2 (by decide)⟩

end Icebreaker

namespace Icebreaker

/-- C2 counterexample: with safe mode disabled, a tool that is enabled,
permitted, uncached and flagged `requires_confirmation` is ALLOWED
(the safety step short-circuits), not denied with the flag set. -/
theorem C2_counterexample_safe_mode_off :
    cfgSafeModeOff.safe_mode = false
    ∧ cfgSafeModeOff.is_tool_enabled "t" = true
    ∧ cfgSafeModeOff.check_permission "t" "r" = true
    ∧ ((cfgSafeModeOff.tool_permissions.lookup "t").getD {}).requires_confirmation = true
    ∧ ((cfgSafeModeOff.tool_permissions.lookup "t").getD {}).blocked_in_safe_mode = false
    ∧ (PermissionManager.init cfgSafeModeOff).permission_cache ("t" ++ ":" ++ "r") = none
    ∧ ((PermissionManager.init cfgSafeModeOff).check_tool_permission "t" "r").1.allowed = true
    ∧ ((PermissionManager.init cfgSafeModeOff).check_tool_permission "t" "r").1.requires_confirmation
        = false := by
  decide

/-- C2 (amended): when safe mode is enabled, for an enabled, permitted,
uncached tool that is not blocked in safe mode, `requires_confirmation`
yields a denial carrying `requires_confirmation`, and otherwise
`requires_approval` yields a denial carrying `requires_approval`. -/
theorem C2_safety_flags_deny_under_safe_mode (m : PermissionManager) (t r : String)
    (hsm : m.config.safe_mode = true)
    (hcache : m.permission_cache (t ++ ":" ++ r) ≠ some true)
    (hen : m.config.is_tool_enabled t = true)
    (hperm : m.config.check_permission t r = true)
    (hblock : ((m.config.tool_permissions.lookup t).getD {}).blocked_in_safe_mode = false) :
    (((m.config.tool_permissions.lookup t).getD {}).requires_confirmation = true →
      (m.check_tool_permission t r).1.allowed = false
      ∧ (m.check_tool_permission t r).1.requires_confirmation = true)
    ∧ (((m.config.tool_permissions.lookup t).getD {}).requires_confirmation = false →
       ((m.config.tool_permissions.lookup t).getD {}).requires_approval = true →
      (m.check_tool_permission t r).1.allowed = false
      ∧ (m.check_tool_permission t r).1.requires_approval = true) := by
  unfold PermissionManager.check_tool_permission
  cases hc : m.permission_cache (t ++ ":" ++ r) with
  | some b =>
      cases b with
      | true => exact absurd hc hcache
      | false =>
          unfold PermissionManager.checkToolUncached
          unfold IcebreakerConfig.is_safe_for_operation
          simp only [hen, hperm, hsm, hblock]
          constructor
          · intro h1
            simp [hc, h1]
          · intro h1 h2
            simp [hc, h1, h2]
  | none =>
      unfold PermissionManager.checkToolUncached
      unfold IcebreakerConfig.is_safe_for_operation
      simp only [hen, hperm, hsm, hblock]
      constructor
      · intro h1
        simp [hc, h1]
      · intro h1 h2
        simp [hc, h1, h2]

theorem C2_witness :
    (((PermissionManager.init cfgConfirmTool).check_tool_permission "t" "r").1.allowed = false
     ∧ ((PermissionManager.init cfgConfirmTool).check_tool_permission "t" "r").1.requires_confirmation
         = true)
    ∧ (((PermissionManager.init cfgApproveTool).check_tool_permission "t" "r").1.allowed = false
     ∧ ((PermissionManager.init cfgApproveTool).check_tool_permission "t" "r").1.requires_approval
         = true) :=
  ⟨(C2_safety_flags_deny_under_safe_mode (PermissionManager.init cfgConfirmTool) "t" "r"
      (by decide) (by decide) (by decide) (by decide) (by decide)).1 (by decide),
   (C2_safety_flags_deny_under_safe_mode (PermissionManager.init cfgApproveTool) "t" "r"
      (by decide) (by decide) (by decide) (by decide) (by decide)).2 (by decide) (by decide)⟩

end Icebreaker

namespace Icebreaker

/-- C3 counterexample: an unknown role is ALLOWED an enabled uncached
tool when that tool has a tool-permission entry with an empty
`required_roles` list (the fallback in `check_permission`). -/
theorem C3_counterexample_fallback_admits_unknown_role :
    cfgUnknownRoleFallback.roles.lookup "r" = none
    ∧ cfgUnknownRoleFallback.is_tool_enabled "t" = true
    ∧ (PermissionManager.init cfgUnknownRoleFallback).permission_cache ("t" ++ ":" ++ "r") = none
    ∧ ((PermissionManager.init cfgUnknownRoleFallback).check_tool_permission "t" "r").1.allowed
        = true := by
  decide

/-- C3 (amended): an unknown role is denied an enabled, uncached tool
with the role-lacks-permission reason, unless the fallback of the
tool-permission table admits it (an entry with an empty `required_roles`
list, or one listing the role). -/
theorem C3_unknown_role_denied_without_fallback (m : PermissionManager) (t r : String)
    (hrole : m.config.roles.lookup r = none)
    (hcache : m.permission_cache (t ++ ":" ++ r) ≠ some true)
    (hen : m.config.is_tool_enabled t = true)
    (hfb : (match m.config.tool_permissions.lookup t with
            | some tool_permission =>
                tool_permission.required_roles.isEmpty
                || tool_permission.required_roles.contains r
            | none => false) = false) :
    (m.check_tool_permission t r).1
      = { allowed := false, reason := .roleLacksPermission r t } := by
  have hcp : m.config.check_permission t r = false := by
    unfold IcebreakerConfig.check_permission
    simp only [hrole]
    simpa using hfb
  unfold PermissionManager.check_tool_permission
  cases hc : m.permission_cache (t ++ ":" ++ r) with
  | some b =>
      cases b with
      | true => exact absurd hc hcache
      | false =>
          unfold PermissionManager.checkToolUncached
          simp [hc, hen, hcp]
  | none =>
      unfold PermissionManager.checkToolUncached
      simp [hc, hen, hcp]

theorem C3_witness :
    (({ safe_mode := false, discovery := { enabled := true, tools := ["t"] },
        roles := [], tool_permissions := [] } : IcebreakerConfig).roles.lookup "r" = none)
    ∧ ((PermissionManager.init
        { safe_mode := false, discovery := { enabled := true, tools := ["t"] },
          roles := [], tool_permissions := [] }).check_tool_permission "t" "r").1
        = { allowed := false, reason := .roleLacksPermission "r" "t" } :=
  ⟨by decide,
   C3_unknown_role_denied_without_fallback
     (PermissionManager.init
       { safe_mode := false, discovery := { enabled := true, tools := ["t"] },
         roles := [], tool_permissions := [] }) "t" "r"
     (by decide) (by decide) (by decide) (by decide)⟩

end Icebreaker

namespace Icebreaker

/-- Model of `check_tool_permission` changes the cache at a key only by writing
`true` at its own key on the allow path. -/
theorem check_tool_cache_effect (m : PermissionManager) (t r k : String) :
    (m.check_tool_permission t r).2.permission_cache k = m.permission_cache k
    ∨ (k = t ++ ":" ++ r
       ∧ (m.check_tool_permission t r).2.permission_cache k = some true
       ∧ (m.check_tool_permission t r).1.allowed = true) := by
  have huc : (m.checkToolUncached t r (t ++ ":" ++ r)).2.permission_cache k
        = m.permission_cache k
      ∨ (k = t ++ ":" ++ r
         ∧ (m.checkToolUncached t r (t ++ ":" ++ r)).2.permission_cache k = some true
         ∧ (m.checkToolUncached t r (t ++ ":" ++ r)).1.allowed = true) := by
    unfold PermissionManager.checkToolUncached
    cases h1 : m.config.is_tool_enabled t with
    | false => left; simp [h1]
    | true =>
        cases h2 : m.config.check_permission t r with
        | false => left; simp [h1, h2]
        | true =>
            cases h3 : (m.config.is_safe_for_operation t).allowed with
            | false => left; simp [h1, h2, h3]
            | true =>
                by_cases hk : k = t ++ ":" ++ r
                · right
                  refine ⟨hk, ?_, ?_⟩ <;> simp [h1, h2, h3, hk]
                · left
                  simp [h1, h2, h3, hk]
  unfold PermissionManager.check_tool_permission
  cases hc : m.permission_cache (t ++ ":" ++ r) with
  | some b =>
      cases b with
      | true => left; simp [hc]
      | false => simpa [hc] using huc
  | none => simpa [hc] using huc

/-- Every reachable cache is positive-only. -/
theorem runOps_cacheOnlyPositive (c : IcebreakerConfig) (ops : List PMOp) :
    cacheOnlyPositive ((PermissionManager.init c).runOps ops) := by
  have hstep : ∀ (m : PermissionManager) (op : PMOp),
      cacheOnlyPositive m → cacheOnlyPositive (m.runOp op) := by
    intro m op hm
    cases op with
    | checkTool t r =>
        intro k
        rcases check_tool_cache_effect m t r k with h | ⟨_, h, _⟩
        · rw [PermissionManager.runOp, h]; exact hm k
        · rw [PermissionManager.runOp, h]; exact Or.inr rfl
    | checkSQL s r => exact hm
    | clearCache => intro k; exact Or.inl rfl
  have hops : ∀ (ops : List PMOp) (m : PermissionManager),
      cacheOnlyPositive m → cacheOnlyPositive (m.runOps ops) := by
    intro ops
    induction ops with
    | nil => intro m hm; exact hm
    | cons op ops ih =>
        intro m hm
        exact ih _ (hstep m op hm)
  exact hops ops _ (fun k => Or.inl rfl)

/-- C9: in every reachable manager state the cache holds only positive
entries; `clear_permission_cache` empties it; `check_sql_permission`
(as a manager operation) leaves it untouched; and `check_tool_permission`
either leaves a key unchanged or writes `true` at its own key on the
allow path. -/
theorem C9_cache_positive_only (c : IcebreakerConfig) (ops : List PMOp)
    (k t r s r2 : String) :
    (((PermissionManager.init c).runOps ops).permission_cache k = none
     ∨ ((PermissionManager.init c).runOps ops).permission_cache k = some true)
    ∧ ((PermissionManager.init c).runOps ops).clear_permission_cache.permission_cache k = none
    ∧ (((PermissionManager.init c).runOps ops).runOp (.checkSQL s r2)).permission_cache k
        = ((PermissionManager.init c).runOps ops).permission_cache k
    ∧ ((((PermissionManager.init c).runOps ops).check_tool_permission t r).2.permission_cache k
        = ((PermissionManager.init c).runOps ops).permission_cache k
       ∨ (k = t ++ ":" ++ r
          ∧ (((PermissionManager.init c).runOps ops).check_tool_permission t r).2.permission_cache k
              = some true
          ∧ (((PermissionManager.init c).runOps ops).check_tool_permission t r).1.allowed = true)) :=
  ⟨runOps_cacheOnlyPositive c ops k, rfl, rfl,
   check_tool_cache_effect ((PermissionManager.init c).runOps ops) t r k⟩

/-- C10: the cache key is the concatenation `tool ++ ":" ++ role`, so
the distinct pairs `("a:b","c")` and `("a","b:c")` share the key
`"a:b:c"`: after a successful check of the first pair, the second pair
is allowed as a cached permission even though its tool is not enabled
and its direct (uncached) check denies it. -/
theorem C10_cache_key_collision :
    ("a:b" ++ ":" ++ "c" : String) = ("a" ++ ":" ++ "b:c" : String)
    ∧ ¬ (("a:b", "c") = (("a" : String), ("b:c" : String)))
    ∧ ((PermissionManager.init cfgColliding).check_tool_permission "a:b" "c").1.allowed = true
    ∧ cfgColliding.is_tool_enabled "a" = false
    ∧ ((PermissionManager.init cfgColliding).check_tool_permission "a" "b:c").1.allowed = false
    ∧ (((PermissionManager.init cfgColliding).check_tool_permission "a:b" "c").2.check_tool_permission
        "a" "b:c").1
        = { allowed := true, reason := .cachedPermission "b:c" "a" }
    ∧ (((PermissionManager.init cfgColliding).check_tool_permission "a:b" "c").2.check_tool_permission
        "a" "b:c").2.permission_cache
        = ((PermissionManager.init cfgColliding).check_tool_permission "a:b" "c").2.permission_cache := by
  refine ⟨by decide, by decide, by decide, by decide, by decide, by decide, rfl⟩

end Icebreaker

namespace Icebreaker

/-- A parameter-building failure surfaces from acquisition as a
`ConnectionError` wrapping the original message (the blanket
`except Exception` in `_create_connection`). -/
theorem get_connection_wraps_build_error (m : SnowflakeConnectionManager)
    (now : Nat) (oracle : ConnectOutcome) (e : PyError)
    (hconn : m.connection = none)
    (hb : build_connection_params m.snowflake m.connection_timeout = .error e) :
    (get_connection m now oracle).1
      = .error (.connectionError ("Failed to connect to Snowflake: " ++ e.msg)) := by
  unfold get_connection create_connection
  simp [hconn, hb]

/-- C4 counterexample: acquiring a connection with password auth and no
password raises `ConnectionError` (wrapping the configuration message),
not `ConfigurationError`. -/
theorem C4_counterexample_wrapped_as_connection_error :
    mgrMissingPassword.snowflake.auth_type = .password
    ∧ mgrMissingPassword.snowflake.password = none
    ∧ build_connection_params mgrMissingPassword.snowflake mgrMissingPassword.connection_timeout
        = .error (.configurationError "Password authentication requires password parameter")
    ∧ (get_connection mgrMissingPassword 0 ConnectOutcome.ok).1
        = .error (.connectionError
            "Failed to connect to Snowflake: Password authentication requires password parameter") :=
  ⟨rfl, rfl, rfl, rfl⟩

/-- C4 (amended): each auth variant missing its required field makes
`_build_connection_params` raise `ConfigurationError`, and the
acquisition path re-raises it as `ConnectionError` wrapping the
configuration message. -/
theorem C4_missing_credential_errors (m : SnowflakeConnectionManager)
    (now : Nat) (oracle : ConnectOutcome) (hconn : m.connection = none) :
    (m.snowflake.auth_type = .private_key → optTruthy m.snowflake.private_key = false →
      optTruthy m.snowflake.private_key_path = false →
      build_connection_params m.snowflake m.connection_timeout
        = .error (.configurationError
            "Private key authentication requires private_key or private_key_path")
      ∧ (get_connection m now oracle).1
        = .error (.connectionError
            "Failed to connect to Snowflake: Private key authentication requires private_key or private_key_path"))
    ∧ (m.snowflake.auth_type = .password → optTruthy m.snowflake.password = false →
      build_connection_params m.snowflake m.connection_timeout
        = .error (.configurationError "Password authentication requires password parameter")
      ∧ (get_connection m now oracle).1
        = .error (.connectionError
            "Failed to connect to Snowflake: Password authentication requires password parameter"))
    ∧ (m.snowflake.auth_type = .oauth → optTruthy m.snowflake.token = false →
      build_connection_params m.snowflake m.connection_timeout
        = .error (.configurationError "OAuth authentication requires token parameter")
      ∧ (get_connection m now oracle).1
        = .error (.connectionError
            "Failed to connect to Snowflake: OAuth authentication requires token parameter")) := by
  refine ⟨?_, ?_, ?_⟩
  · intro hat h1 h2
    have hb : build_connection_params m.snowflake m.connection_timeout
        = .error (.configurationError
            "Private key authentication requires private_key or private_key_path") := by
      unfold build_connection_params
      simp [hat, h1, h2]
    exact ⟨hb, get_connection_wraps_build_error m now oracle _ hconn hb⟩
  · intro hat h1
    have hb : build_connection_params m.snowflake m.connection_timeout
        = .error (.configurationError "Password authentication requires password parameter") := by
      unfold build_connection_params
      simp [hat, h1]
    exact ⟨hb, get_connection_wraps_build_error m now oracle _ hconn hb⟩
  · intro hat h1
    have hb : build_connection_params m.snowflake m.connection_timeout
        = .error (.configurationError "OAuth authentication requires token parameter") := by
      unfold build_connection_params
      simp [hat, h1]
    exact ⟨hb, get_connection_wraps_build_error m now oracle _ hconn hb⟩

theorem C4_witness :
    (get_connection mgrMissingPrivateKey 0 ConnectOutcome.ok).1
      = .error (.connectionError
          "Failed to connect to Snowflake: Private key authentication requires private_key or private_key_path")
    ∧ (get_connection mgrMissingToken 0 (ConnectOutcome.fail "boom")).1
      = .error (.connectionError
          "Failed to connect to Snowflake: OAuth authentication requires token parameter") :=
  ⟨((C4_missing_credential_errors mgrMissingPrivateKey 0 ConnectOutcome.ok rfl).1
      rfl (by decide) (by decide)).2,
   ((C4_missing_credential_errors mgrMissingToken 0 (ConnectOutcome.fail "boom") rfl).2.2
      rfl (by decide)).2⟩

end Icebreaker

namespace Icebreaker

/-- C5 counterexample: a reachable state with no connection handle but
a recorded error reports the error message, not "no connection
established" — the error branch precedes the no-connection branch. -/
theorem C5_counterexample_error_branch_first :
    mgrAfterFailedAcquire.connection = none
    ∧ (is_connection_healthy mgrAfterFailedAcquire 0).1 = false
    ∧ (is_connection_healthy mgrAfterFailedAcquire 0).2
        = some (.errorMsg (.connectionError
            "Failed to connect to Snowflake: Password authentication requires password parameter"))
    ∧ (is_connection_healthy mgrAfterFailedAcquire 0).2 ≠ some HealthReason.noConnection := by
  refine ⟨rfl, rfl, rfl, by decide⟩

/-- C5 (amended): `is_connection_healthy` reports the recorded error
first (with the stored healthy flag); with no recorded error, no
connection yields the no-connection reason, then staleness yields the
stale reason, and otherwise the stored healthy state with no reason. -/
theorem C5_health_reporting_order (m : SnowflakeConnectionManager) (now : Nat) :
    (∀ e, m.last_error = some e →
      is_connection_healthy m now = (m.connection_healthy, some (.errorMsg e)))
    ∧ (m.last_error = none → m.connection = none →
      is_connection_healthy m now = (false, some .noConnection))
    ∧ (m.last_error = none → m.connection ≠ none → is_connection_stale m now = true →
      is_connection_healthy m now = (false, some .stale))
    ∧ (m.last_error = none → m.connection ≠ none → is_connection_stale m now = false →
      is_connection_healthy m now = (m.connection_healthy, none)) := by
  refine ⟨?_, ?_, ?_, ?_⟩
  · intro e he
    unfold is_connection_healthy
    simp [he]
  · intro he hc
    unfold is_connection_healthy
    simp [he, hc]
  · intro he hc hs
    unfold is_connection_healthy
    simp [he, hs, Option.isNone_iff_eq_none, hc]
  · intro he hc hs
    unfold is_connection_healthy
    simp [he, hs, Option.isNone_iff_eq_none, hc]

theorem C5_witness :
    is_connection_healthy { snowflake := { account := "acct", user := "u" } } 0
      = (false, some HealthReason.noConnection)
    ∧ is_connection_healthy
        { snowflake := { account := "acct", user := "u" },
          connection := some (), last_refresh := some 0, connection_healthy := true } 100
      = (false, some HealthReason.stale)
    ∧ is_connection_healthy
        { snowflake := { account := "acct", user := "u" },
          connection := some (), last_refresh := some 0, connection_healthy := true } 5
      = (true, none)
    ∧ is_connection_healthy
        { snowflake := { account := "acct", user := "u" },
          last_error := some (.externalError "boom") } 0
      = (false, some (.errorMsg (.externalError "boom"))) :=
  ⟨(C5_health_reporting_order { snowflake := { account := "acct", user := "u" } } 0).2.1 rfl rfl,
   (C5_health_reporting_order
      { snowflake := { account := "acct", user := "u" },
        connection := some (), last_refresh := some 0, connection_healthy := true } 100).2.2.1
      rfl (by decide) (by decide),
   (C5_health_reporting_order
      { snowflake := { account := "acct", user := "u" },
        connection := some (), last_refresh := some 0, connection_healthy := true } 5).2.2.2
      rfl (by decide) (by decide),
   (C5_health_reporting_order
      { snowflake := { account := "acct", user := "u" },
        last_error := some (.externalError "boom") } 0).1 _ rfl⟩

/-- C8 counterexample: in the program-order trace of `get_connection`,
the caller-supplied body at the yield runs BEFORE the lock release, so
the lock is not released before caller execution begins. -/
theorem C8_counterexample_lock_held_across_yield :
    acquireEventTrace.indexOf AcquireEvent.callerBody
      < acquireEventTrace.indexOf AcquireEvent.lockRelease
    ∧ ¬ (acquireEventTrace.indexOf AcquireEvent.lockRelease
      < acquireEventTrace.indexOf AcquireEvent.callerBody) := by
  decide

/-- C8 (amended): the exclusive lock is acquired before the
connect-or-reuse decision and cursor creation and is held across the
caller-supplied body at the yield; it is released only when the
acquisition context exits, after that body. -/
theorem C8_lock_scope_encloses_caller_body :
    acquireEventTrace.indexOf AcquireEvent.lockAcquire
      < acquireEventTrace.indexOf AcquireEvent.connectOrReuse
    ∧ acquireEventTrace.indexOf AcquireEvent.connectOrReuse
      < acquireEventTrace.indexOf AcquireEvent.cursorCreate
    ∧ acquireEventTrace.indexOf AcquireEvent.cursorCreate
      < acquireEventTrace.indexOf AcquireEvent.callerBody
    ∧ acquireEventTrace.indexOf AcquireEvent.callerBody
      < acquireEventTrace.indexOf AcquireEvent.lockRelease := by
  decide

end Icebreaker
